import Mathlib

/-!
Verification of `src/robotide/contrib/testrunner/runprofiles.py`.

The module defines `BaseProfile` (an abstract run profile for a test runner
plugin) and `PybotProfile` (a concrete profile naming the `pybot` runner).
We embed the module shallowly:

* Python strings are Lean `String`s; Python's `str.split(",")` and
  `str.strip()` are modelled by `pySplitComma` and `pyStrip`, defined over the
  character list so that they compute in the kernel.
* The host plugin object is `PluginState`: the four settings the profile
  reads, plus a log of `save_setting` invocations the profile makes on it.
* A profile instance is `ProfileState`: the plugin reference, the cached
  toolbar panel, and the (never assigned) `includeTags` / `excludeTags`
  attributes, modelled as `Option` fields that start out `none` because
  nothing in the file ever assigns them.
* Methods become functions from `ProfileState`; the GUI event loop is the
  free monoid over `Op`, folded with `runOp`.
-/

/-- Python `s.split(",")` on the character list: splitting on a separator
always yields one (possibly empty) segment more than the number of
separators; in particular the empty string yields `[[]]`. -/
def pySplitCommaChars : List Char → List (List Char)
  | [] => [[]]
  | c :: cs =>
    match pySplitCommaChars cs with
    | t :: ts => if c = ',' then [] :: t :: ts else (c :: t) :: ts
    | [] => [[c]]

/-- Python `s.split(",")` for `String`. -/
def pySplitComma (s : String) : List String :=
  (pySplitCommaChars s.data).map (fun l => String.mk l)

/-- Python `s.strip()` on the character list: drop whitespace from both
ends. -/
def pyStripChars (l : List Char) : List Char :=
  ((l.dropWhile Char.isWhitespace).reverse.dropWhile Char.isWhitespace).reverse

/-- Python `s.strip()` for `String`. -/
def pyStrip (s : String) : String := String.mk (pyStripChars s.data)

/-- A value handed to the plugin settings store: the profile only ever passes
Python bools and strings. -/
inductive SettingValue where
  | b (v : Bool)
  | s (v : String)
deriving DecidableEq

/-- One recorded invocation of the host plugin's `save_setting(name, value,
delay)`. -/
structure SaveCall where
  name : String
  value : SettingValue
  delay : Nat
deriving DecidableEq

/-- The host plugin object as seen from this module: the four settings the
profile reads (`apply_include_tags`, `include_tags`, `apply_exclude_tags`,
`exclude_tags`) and, modelled from the spec, the host's `save_setting`
operation recorded as an invocation log (`saved`); the host owns the storage
and its semantics, which is outside this module. -/
structure PluginState where
  apply_include_tags : Bool
  include_tags : String
  apply_exclude_tags : Bool
  exclude_tags : String
  saved : List SaveCall
deriving DecidableEq

/-- Modelled from the spec: the host plugin's `save_setting(name, value,
delay)` write operation, recorded as an appended log entry. -/
def save_setting (p : PluginState) (name : String) (value : SettingValue)
    (delay : Nat) : PluginState :=
  { p with saved := p.saved ++ [⟨name, value, delay⟩] }

/-- A `wx.TextCtrl`, reduced to its current text value (`GetValue()`). -/
structure TextCtrl where
  value : String
deriving DecidableEq

/-- The `wx.Panel` built by `TagsPanel`: the parent container it was created
in, the two checkboxes (set from the apply flags) and the two text controls
(set from the tag strings). -/
structure Panel where
  parent : Nat
  include_cb : Bool
  exclude_cb : Bool
  include_tags_ctrl : TextCtrl
  exclude_tags_ctrl : TextCtrl
deriving DecidableEq

/-- A checkbox event; `checked` is `evt.IsChecked()`. -/
structure CheckboxEvent where
  checked : Bool
deriving DecidableEq

/-- A text change event on one of the tag text controls; `value` is the
current text of the control that fired it. -/
structure TextEvent where
  value : String
deriving DecidableEq

/-- A `BaseProfile` instance: the plugin back-reference, the lazily created
toolbar (`self.toolbar`, set to `None` in `__init__`), and the
`self.includeTags` / `self.excludeTags` attributes read by the text-change
handlers. No statement in the file ever assigns those two attributes, so
they are `Option` fields that remain `none`; reading them while `none` is
Python's `AttributeError`. -/
structure ProfileState where
  plugin : PluginState
  toolbar : Option Panel
  includeTags : Option TextCtrl
  excludeTags : Option TextCtrl
deriving DecidableEq

namespace BaseProfile

/-- `__init__(self, plugin)`: store the plugin and set `self.toolbar = None`.
The `includeTags` / `excludeTags` attributes do not exist on a fresh
instance. -/
def init (plugin : PluginState) : ProfileState :=
  { plugin := plugin, toolbar := none, includeTags := none, excludeTags := none }

/-- `TagsPanel(self, parent)`: build the panel, with the checkboxes set from
the apply flags and the text controls set from the tag strings. -/
def TagsPanel (s : ProfileState) (parent : Nat) : Panel :=
  { parent := parent
    include_cb := s.plugin.apply_include_tags
    exclude_cb := s.plugin.apply_exclude_tags
    include_tags_ctrl := ⟨s.plugin.include_tags⟩
    exclude_tags_ctrl := ⟨s.plugin.exclude_tags⟩ }

/-- `get_toolbar(self, parent)`: build and cache the panel on first call,
return the cached panel afterwards. -/
def get_toolbar (s : ProfileState) (parent : Nat) : Panel × ProfileState :=
  match s.toolbar with
  | none =>
    let pan := TagsPanel s parent
    (pan, { s with toolbar := some pan })
  | some pan => (pan, s)

/-- The body of the two `for` loops in `get_custom_args`: strip the segment
and append `<pre>=<segment>` to the accumulated argument list when the
stripped segment is non-empty. -/
def tagStep (pre : String) (args : List String) (t0 : String) : List String :=
  let t := pyStrip t0
  if t.length > 0 then args ++ [pre ++ t] else args

/-- `get_custom_args(self)`: start from `args = []`; when
`self.plugin.apply_include_tags and self.plugin.include_tags` holds (Python
truthiness: the flag is true and the string non-empty), fold the loop body
over `include_tags.split(",")` appending `--include=` tokens; then the same
for `--exclude=`. -/
def get_custom_args (s : ProfileState) : List String :=
  let args : List String := []
  let args :=
    if s.plugin.apply_include_tags ∧ s.plugin.include_tags ≠ "" then
      (pySplitComma s.plugin.include_tags).foldl (tagStep "--include=") args
    else args
  let args :=
    if s.plugin.apply_exclude_tags ∧ s.plugin.exclude_tags ≠ "" then
      (pySplitComma s.plugin.exclude_tags).foldl (tagStep "--exclude=") args
    else args
  args

/-- `get_command_prefix(self)`: `["pybot.bat"]` when `os.name == "nt"`,
`["pybot"]` otherwise. The host operating system name is a parameter. -/
def get_command_prefix (osname : String) : List String :=
  if osname = "nt" then ["pybot.bat"] else ["pybot"]

/-- `set_setting(self, name, value)`: forward to
`self.plugin.save_setting(name, value, delay=2)`. -/
def set_setting (s : ProfileState) (name : String) (value : SettingValue) :
    ProfileState :=
  { s with plugin := save_setting s.plugin name value 2 }

/-- `OnExcludeCheckbox(self, evt)`: persist the checkbox state. -/
def OnExcludeCheckbox (s : ProfileState) (evt : CheckboxEvent) : ProfileState :=
  set_setting s "apply_exclude_tags" (SettingValue.b evt.checked)

/-- `OnIncludeCheckbox(self, evt)`: persist the checkbox state. -/
def OnIncludeCheckbox (s : ProfileState) (evt : CheckboxEvent) : ProfileState :=
  set_setting s "apply_include_tags" (SettingValue.b evt.checked)

/-- `OnIncludeTagsChanged(self, evt)`: the source reads
`self.includeTags.GetValue()` and ignores `evt`; when the attribute was never
assigned this read raises `AttributeError` before `set_setting` is reached. -/
def OnIncludeTagsChanged (s : ProfileState) (_evt : TextEvent) :
    Except String ProfileState :=
  match s.includeTags with
  | none => Except.error "AttributeError: BaseProfile instance has no attribute includeTags"
  | some tc => Except.ok (set_setting s "include_tags" (SettingValue.s tc.value))

/-- `OnExcludeTagsChanged(self, evt)`: the source reads
`self.excludeTags.GetValue()` and ignores `evt`; same `AttributeError`
behaviour as the include handler. -/
def OnExcludeTagsChanged (s : ProfileState) (_evt : TextEvent) :
    Except String ProfileState :=
  match s.excludeTags with
  | none => Except.error "AttributeError: BaseProfile instance has no attribute excludeTags"
  | some tc => Except.ok (set_setting s "exclude_tags" (SettingValue.s tc.value))

end BaseProfile

namespace PybotProfile

/-- The `name` class attribute of `PybotProfile`. -/
def name : String := "pybot"

/-- `PybotProfile.get_command_prefix(self)`: the override in the subclass,
translated from its own lines 130-134. -/
def get_command_prefix (osname : String) : List String :=
  if osname = "nt" then ["pybot.bat"] else ["pybot"]

end PybotProfile

/-- One host- or user-initiated call into the profile. Text-change and
checkbox events carry the current control value the GUI would deliver. -/
inductive Op where
  | getToolbar (parent : Nat)
  | getCustomArgs
  | includeCheckbox (checked : Bool)
  | excludeCheckbox (checked : Bool)
  | includeTagsChanged (value : String)
  | excludeTagsChanged (value : String)
deriving DecidableEq

/-- Run one operation on a profile instance. `get_custom_args` only reads
state, so its case returns the state unchanged; a handler that raises
`AttributeError` leaves the state unchanged because the exception is raised
while evaluating the argument of `set_setting`. -/
def runOp (s : ProfileState) : Op → ProfileState
  | Op.getToolbar parent => (BaseProfile.get_toolbar s parent).2
  | Op.getCustomArgs => s
  | Op.includeCheckbox b => BaseProfile.OnIncludeCheckbox s ⟨b⟩
  | Op.excludeCheckbox b => BaseProfile.OnExcludeCheckbox s ⟨b⟩
  | Op.includeTagsChanged v =>
    match BaseProfile.OnIncludeTagsChanged s ⟨v⟩ with
    | Except.ok s2 => s2
    | Except.error _ => s
  | Op.excludeTagsChanged v =>
    match BaseProfile.OnExcludeTagsChanged s ⟨v⟩ with
    | Except.ok s2 => s2
    | Except.error _ => s

/-- The spec's description of tag splitting: split on commas, trim
whitespace, drop empty segments. -/
def tagSegments (s0 : String) : List String :=
  ((pySplitComma s0).map pyStrip).filter (fun t => t.length > 0)

/-- The spec's description of the include portion of the argument list. -/
def includeArgs (p : PluginState) : List String :=
  if p.apply_include_tags ∧ p.include_tags ≠ "" then
    (tagSegments p.include_tags).map (fun t => "--include=" ++ t)
  else []

/-- The spec's description of the exclude portion of the argument list. -/
def excludeArgs (p : PluginState) : List String :=
  if p.apply_exclude_tags ∧ p.exclude_tags ≠ "" then
    (tagSegments p.exclude_tags).map (fun t => "--exclude=" ++ t)
  else []

theorem tagStep_foldl (pre : String) (l init : List String) :
    l.foldl (BaseProfile.tagStep pre) init
      = init ++ ((l.map pyStrip).filter (fun t => t.length > 0)).map
          (fun t => pre ++ t) := by
  induction l generalizing init with
  | nil => simp
  | cons x xs ih =>
    simp only [List.foldl_cons, List.map_cons, List.filter_cons, ih,
      BaseProfile.tagStep]
    by_cases h : (pyStrip x).length > 0
    · simp [h, List.append_assoc]
    · simp [h]

theorem get_custom_args_eq (s : ProfileState) :
    BaseProfile.get_custom_args s = includeArgs s.plugin ++ excludeArgs s.plugin := by
  unfold BaseProfile.get_custom_args includeArgs excludeArgs tagSegments
  by_cases h1 : s.plugin.apply_include_tags = true ∧ s.plugin.include_tags ≠ "" <;>
    by_cases h2 : s.plugin.apply_exclude_tags = true ∧ s.plugin.exclude_tags ≠ "" <;>
      simp [h1, h2, tagStep_foldl]

theorem include_token_ne_exclude_token (t1 t2 : String) :
    ("--include=" ++ t1 : String) ≠ "--exclude=" ++ t2 := by
  intro h
  have h2 := congrArg String.data h
  rw [String.data_append, String.data_append] at h2
  have h3 := List.append_inj h2 (by decide)
  exact absurd h3.1 (by decide)

theorem mem_includeArgs {p : PluginState} {a : String} (h : a ∈ includeArgs p) :
    ∃ t, a = "--include=" ++ t := by
  unfold includeArgs at h
  split at h
  · obtain ⟨t, _, rfl⟩ := List.mem_map.mp h
    exact ⟨t, rfl⟩
  · simp at h

theorem mem_excludeArgs {p : PluginState} {a : String} (h : a ∈ excludeArgs p) :
    ∃ t, a = "--exclude=" ++ t := by
  unfold excludeArgs at h
  split at h
  · obtain ⟨t, _, rfl⟩ := List.mem_map.mp h
    exact ⟨t, rfl⟩
  · simp at h

theorem runOp_toolbar {s : ProfileState} {pan : Panel} (h : s.toolbar = some pan)
    (op : Op) : (runOp s op).toolbar = some pan := by
  cases op with
  | getToolbar parent => simp [runOp, BaseProfile.get_toolbar, h]
  | getCustomArgs => exact h
  | includeCheckbox b =>
    simpa [runOp, BaseProfile.OnIncludeCheckbox, BaseProfile.set_setting] using h
  | excludeCheckbox b =>
    simpa [runOp, BaseProfile.OnExcludeCheckbox, BaseProfile.set_setting] using h
  | includeTagsChanged v =>
    cases hin : s.includeTags with
    | none => simpa [runOp, BaseProfile.OnIncludeTagsChanged, hin] using h
    | some tc =>
      simpa [runOp, BaseProfile.OnIncludeTagsChanged, hin,
        BaseProfile.set_setting] using h
  | excludeTagsChanged v =>
    cases hex : s.excludeTags with
    | none => simpa [runOp, BaseProfile.OnExcludeTagsChanged, hex] using h
    | some tc =>
      simpa [runOp, BaseProfile.OnExcludeTagsChanged, hex,
        BaseProfile.set_setting] using h

theorem foldl_runOp_toolbar (ops : List Op) {s : ProfileState} {pan : Panel}
    (h : s.toolbar = some pan) : (ops.foldl runOp s).toolbar = some pan := by
  induction ops generalizing s with
  | nil => exact h
  | cons op ops ih => exact ih (runOp_toolbar h op)

theorem get_toolbar_cached {s : ProfileState} {pan : Panel}
    (h : s.toolbar = some pan) (parent : Nat) :
    BaseProfile.get_toolbar s parent = (pan, s) := by
  unfold BaseProfile.get_toolbar
  rw [h]

theorem runOp_text_attrs (s : ProfileState) (op : Op) :
    (runOp s op).includeTags = s.includeTags ∧
      (runOp s op).excludeTags = s.excludeTags := by
  cases op with
  | getToolbar parent =>
    cases htb : s.toolbar <;> simp [runOp, BaseProfile.get_toolbar, htb]
  | getCustomArgs => exact ⟨rfl, rfl⟩
  | includeCheckbox b =>
    simp [runOp, BaseProfile.OnIncludeCheckbox, BaseProfile.set_setting]
  | excludeCheckbox b =>
    simp [runOp, BaseProfile.OnExcludeCheckbox, BaseProfile.set_setting]
  | includeTagsChanged v =>
    cases hin : s.includeTags <;>
      simp [runOp, BaseProfile.OnIncludeTagsChanged, hin, BaseProfile.set_setting]
  | excludeTagsChanged v =>
    cases hex : s.excludeTags <;>
      simp [runOp, BaseProfile.OnExcludeTagsChanged, hex, BaseProfile.set_setting]

theorem foldl_runOp_text_attrs (ops : List Op) (s : ProfileState) :
    (ops.foldl runOp s).includeTags = s.includeTags ∧
      (ops.foldl runOp s).excludeTags = s.excludeTags := by
  induction ops generalizing s with
  | nil => exact ⟨rfl, rfl⟩
  | cons op ops ih =>
    obtain ⟨h1, h2⟩ := runOp_text_attrs s op
    obtain ⟨h3, h4⟩ := ih (runOp s op)
    exact ⟨h3.trans h1, h4.trans h2⟩

theorem append_pos_lt {α : Type} (I E l : List α) (P Q : α → Prop)
    (heq : l = I ++ E)
    (hPI : ∀ a ∈ E, ¬ P a) (hQE : ∀ a ∈ I, ¬ Q a)
    (i j : Nat) (hi : i < l.length) (hj : j < l.length)
    (hP : P (l.get ⟨i, hi⟩)) (hQ : Q (l.get ⟨j, hj⟩)) : i < j := by
  subst heq
  have hiI : i < I.length := by
    by_contra hge
    push_neg at hge
    have hmem : (I ++ E).get ⟨i, hi⟩ ∈ E := by
      rw [List.get_eq_getElem, List.getElem_append_right hge]
      exact List.get_mem E _ _
    exact hPI _ hmem hP
  have hjI : I.length ≤ j := by
    by_contra hlt
    push_neg at hlt
    have hmem : (I ++ E).get ⟨j, hj⟩ ∈ I := by
      rw [List.get_eq_getElem, List.getElem_append_left hlt]
      exact List.get_mem I _ _
    exact hQE _ hmem hQ
  exact Nat.lt_of_lt_of_le hiI hjI

/-- Plugin settings of the worked example of the spec: include tags
`"a, b ,,c"` with the include flag on and the exclude flag off. -/
def plugin1 : PluginState :=
  { apply_include_tags := true, include_tags := "a, b ,,c"
    apply_exclude_tags := false, exclude_tags := "", saved := [] }

/-- A fresh profile over `plugin1`. -/
def state1 : ProfileState := BaseProfile.init plugin1

/-- Plugin settings with the include flag off but a non-empty include string,
and one exclude tag applied. -/
def plugin3 : PluginState :=
  { apply_include_tags := false, include_tags := "a,b"
    apply_exclude_tags := true, exclude_tags := "x", saved := [] }

/-- A fresh profile over `plugin3`. -/
def state3 : ProfileState := BaseProfile.init plugin3

/-- Plugin settings with both flags on and one tag on each side. -/
def plugin5 : PluginState :=
  { apply_include_tags := true, include_tags := "a"
    apply_exclude_tags := true, exclude_tags := "b", saved := [] }

/-- A fresh profile over `plugin5`. -/
def state5 : ProfileState := BaseProfile.init plugin5

/-- Claim C1: when an apply flag is true and its tag string is non-empty,
`get_custom_args` splits the string on commas, trims whitespace from each
segment, drops empty segments, and emits exactly one `--include=<tag>`
(resp. `--exclude=<tag>`) token per remaining segment in comma order, with
no other token in that portion of the list; in particular the include
string `"a, b ,,c"` with its flag on and the exclude flag off yields exactly
`["--include=a", "--include=b", "--include=c"]`. -/
theorem customArgs_splits_trims_filters (s : ProfileState) :
    (s.plugin.apply_include_tags = true → s.plugin.include_tags ≠ "" →
      BaseProfile.get_custom_args s
        = (tagSegments s.plugin.include_tags).map (fun t => "--include=" ++ t)
            ++ excludeArgs s.plugin) ∧
    (s.plugin.apply_exclude_tags = true → s.plugin.exclude_tags ≠ "" →
      BaseProfile.get_custom_args s
        = includeArgs s.plugin
            ++ (tagSegments s.plugin.exclude_tags).map (fun t => "--exclude=" ++ t)) ∧
    (s.plugin.apply_include_tags = true → s.plugin.include_tags = "a, b ,,c" →
      s.plugin.apply_exclude_tags = false →
      BaseProfile.get_custom_args s
        = ["--include=a", "--include=b", "--include=c"]) := by
  refine ⟨fun h1 h2 => ?_, fun h1 h2 => ?_, fun h1 h2 h3 => ?_⟩
  · rw [get_custom_args_eq]
    unfold includeArgs
    rw [if_pos ⟨h1, h2⟩]
  · rw [get_custom_args_eq]
    unfold excludeArgs
    rw [if_pos ⟨h1, h2⟩]
  · have hinc : includeArgs s.plugin = ["--include=a", "--include=b", "--include=c"] := by
      unfold includeArgs
      rw [if_pos ⟨h1, by rw [h2]; decide⟩, h2]
      decide
    have hexc : excludeArgs s.plugin = [] := by
      unfold excludeArgs
      rw [if_neg (by simp [h3])]
    rw [get_custom_args_eq, hinc, hexc, List.append_nil]

/-- Witness for C1 at the spec's worked example. -/
theorem customArgs_splits_trims_filters_witness :
    state1.plugin.apply_include_tags = true ∧
    state1.plugin.include_tags = "a, b ,,c" ∧
    state1.plugin.apply_exclude_tags = false ∧
    BaseProfile.get_custom_args state1
      = ["--include=a", "--include=b", "--include=c"] :=
  ⟨rfl, rfl, rfl, (customArgs_splits_trims_filters state1).2.2 rfl rfl rfl⟩

/-- Claim C3: when an apply flag is false, `get_custom_args` produces no
token of the corresponding kind, whatever the tag strings hold. -/
theorem customArgs_no_tokens_when_flag_off (s : ProfileState) :
    (s.plugin.apply_include_tags = false →
      ∀ a ∈ BaseProfile.get_custom_args s, ∀ t : String, a ≠ "--include=" ++ t) ∧
    (s.plugin.apply_exclude_tags = false →
      ∀ a ∈ BaseProfile.get_custom_args s, ∀ t : String, a ≠ "--exclude=" ++ t) := by
  constructor
  · intro hflag a ha t
    rw [get_custom_args_eq] at ha
    have hinc : includeArgs s.plugin = [] := by
      unfold includeArgs
      rw [if_neg (by simp [hflag])]
    rw [hinc, List.nil_append] at ha
    obtain ⟨t2, rfl⟩ := mem_excludeArgs ha
    exact Ne.symm (include_token_ne_exclude_token t t2)
  · intro hflag a ha t
    rw [get_custom_args_eq] at ha
    have hexc : excludeArgs s.plugin = [] := by
      unfold excludeArgs
      rw [if_neg (by simp [hflag])]
    rw [hexc, List.append_nil] at ha
    obtain ⟨t2, rfl⟩ := mem_includeArgs ha
    exact include_token_ne_exclude_token t2 t

/-- Witness for C3: with the include flag off but include text present, the
only argument produced is the exclude token, and it is not an include
token. -/
theorem customArgs_no_tokens_when_flag_off_witness :
    state3.plugin.apply_include_tags = false ∧
    ("--exclude=x" : String) ∈ BaseProfile.get_custom_args state3 ∧
    ("--exclude=x" : String) ≠ "--include=" ++ "a" :=
  ⟨rfl, by decide,
    (customArgs_no_tokens_when_flag_off state3).1 rfl "--exclude=x" (by decide) "a"⟩

/-- Claim C4: on both classes, `get_command_prefix` returns `["pybot.bat"]`
when `os.name == "nt"` and `["pybot"]` otherwise. -/
theorem command_prefix_by_os (osname : String) :
    (osname = "nt" → BaseProfile.get_command_prefix osname = ["pybot.bat"]) ∧
    (osname ≠ "nt" → BaseProfile.get_command_prefix osname = ["pybot"]) ∧
    (osname = "nt" → PybotProfile.get_command_prefix osname = ["pybot.bat"]) ∧
    (osname ≠ "nt" → PybotProfile.get_command_prefix osname = ["pybot"]) := by
  refine ⟨fun h => ?_, fun h => ?_, fun h => ?_, fun h => ?_⟩
  · unfold BaseProfile.get_command_prefix
    rw [if_pos h]
  · unfold BaseProfile.get_command_prefix
    rw [if_neg h]
  · unfold PybotProfile.get_command_prefix
    rw [if_pos h]
  · unfold PybotProfile.get_command_prefix
    rw [if_neg h]

/-- Witness for C4 at `os.name = "nt"` and `os.name = "posix"`. -/
theorem command_prefix_by_os_witness :
    ("nt" : String) = "nt" ∧
    BaseProfile.get_command_prefix "nt" = ["pybot.bat"] ∧
    ("posix" : String) ≠ "nt" ∧
    BaseProfile.get_command_prefix "posix" = ["pybot"] ∧
    PybotProfile.get_command_prefix "nt" = ["pybot.bat"] ∧
    PybotProfile.get_command_prefix "posix" = ["pybot"] :=
  ⟨rfl, (command_prefix_by_os "nt").1 rfl, by decide,
    (command_prefix_by_os "posix").2.1 (by decide),
    (command_prefix_by_os "nt").2.2.1 rfl,
    (command_prefix_by_os "posix").2.2.2 (by decide)⟩

/-- Claim C9: the override of `get_command_prefix` in `PybotProfile` is
behaviourally identical to the inherited `BaseProfile` method for every
value of `os.name`. -/
theorem pybot_same_command_as_base (osname : String) :
    PybotProfile.get_command_prefix osname = BaseProfile.get_command_prefix osname := rfl

/-- Claim C6: on a fresh instance, the first `get_toolbar` call builds the
panel and caches it, and a second call on any instance returns exactly the
panel and state the first call produced, without rebuilding. -/
theorem toolbar_idempotent (p : PluginState) (parent : Nat) (s : ProfileState) :
    (BaseProfile.get_toolbar (BaseProfile.init p) parent).2.toolbar
        = some (BaseProfile.get_toolbar (BaseProfile.init p) parent).1 ∧
    (BaseProfile.get_toolbar (BaseProfile.init p) parent).1
        = BaseProfile.TagsPanel (BaseProfile.init p) parent ∧
    BaseProfile.get_toolbar (BaseProfile.get_toolbar s parent).2 parent
        = BaseProfile.get_toolbar s parent := by
  refine ⟨rfl, rfl, ?_⟩
  cases htb : s.toolbar with
  | none => simp [BaseProfile.get_toolbar, htb]
  | some pan => simp [BaseProfile.get_toolbar, htb]

/-- Claim C7: the checkbox handlers invoke the plugin's `save_setting`
exactly once, with the setting name, the checked state of the event, and
`delay=2`. -/
theorem checkbox_saves_setting (s : ProfileState) (evt : CheckboxEvent) :
    (BaseProfile.OnIncludeCheckbox s evt).plugin.saved
        = s.plugin.saved ++ [⟨"apply_include_tags", SettingValue.b evt.checked, 2⟩] ∧
    (BaseProfile.OnExcludeCheckbox s evt).plugin.saved
        = s.plugin.saved ++ [⟨"apply_exclude_tags", SettingValue.b evt.checked, 2⟩] :=
  ⟨rfl, rfl⟩

/-- Claim C2 (refuted by the code): on every state reachable from a fresh
instance by any sequence of operations, the text-change handlers raise
`AttributeError`, because `self.includeTags` / `self.excludeTags` are never
assigned anywhere in the file; `set_setting` is never reached. -/
theorem text_changed_handlers_raise (p : PluginState) (ops : List Op) (e : TextEvent) :
    BaseProfile.OnIncludeTagsChanged (ops.foldl runOp (BaseProfile.init p)) e
        = Except.error "AttributeError: BaseProfile instance has no attribute includeTags" ∧
    BaseProfile.OnExcludeTagsChanged (ops.foldl runOp (BaseProfile.init p)) e
        = Except.error "AttributeError: BaseProfile instance has no attribute excludeTags" := by
  obtain ⟨h1, h2⟩ := foldl_runOp_text_attrs ops (BaseProfile.init p)
  have hn1 : (ops.foldl runOp (BaseProfile.init p)).includeTags = none := h1
  have hn2 : (ops.foldl runOp (BaseProfile.init p)).excludeTags = none := h2
  constructor
  · simp [BaseProfile.OnIncludeTagsChanged, hn1]
  · simp [BaseProfile.OnExcludeTagsChanged, hn2]

/-- Claim C8: `get_custom_args` performs no write (as an operation it leaves
the whole state, in particular the settings and the `save_setting` log,
unchanged) and its result depends only on the four settings fields. -/
theorem customArgs_reads_only_settings (s t : ProfileState) :
    runOp s Op.getCustomArgs = s ∧
    (s.plugin.apply_include_tags = t.plugin.apply_include_tags →
      s.plugin.include_tags = t.plugin.include_tags →
      s.plugin.apply_exclude_tags = t.plugin.apply_exclude_tags →
      s.plugin.exclude_tags = t.plugin.exclude_tags →
      BaseProfile.get_custom_args s = BaseProfile.get_custom_args t) := by
  refine ⟨rfl, fun h1 h2 h3 h4 => ?_⟩
  unfold BaseProfile.get_custom_args
  rw [h1, h2, h3, h4]

/-- A profile state differing from `state1` only in the save log and the
cached toolbar. -/
def state1b : ProfileState :=
  { plugin := { plugin1 with saved := [⟨"apply_include_tags", SettingValue.b true, 2⟩] }
    toolbar := some (BaseProfile.TagsPanel state1 0)
    includeTags := none, excludeTags := none }

/-- Witness for C8: two states agreeing on the four settings but differing
in the save log and toolbar get the same argument list. -/
theorem customArgs_reads_only_settings_witness :
    state1.plugin.saved ≠ state1b.plugin.saved ∧
    BaseProfile.get_custom_args state1 = BaseProfile.get_custom_args state1b :=
  ⟨by decide, (customArgs_reads_only_settings state1 state1b).2 rfl rfl rfl rfl⟩

/-- Claim C10: once the first `get_toolbar(p1)` call on a fresh instance has
cached a panel, no sequence of further operations replaces it: a later
`get_toolbar(p2)` with any parent returns the panel built for `p1` and
leaves the state unchanged. -/
theorem toolbar_never_replaced (p : PluginState) (p1 p2 : Nat) (ops : List Op) :
    (BaseProfile.get_toolbar
        (ops.foldl runOp (BaseProfile.get_toolbar (BaseProfile.init p) p1).2) p2).1
        = BaseProfile.TagsPanel (BaseProfile.init p) p1 ∧
    (BaseProfile.get_toolbar
        (ops.foldl runOp (BaseProfile.get_toolbar (BaseProfile.init p) p1).2) p2).2
        = ops.foldl runOp (BaseProfile.get_toolbar (BaseProfile.init p) p1).2 := by
  have hcache : (BaseProfile.get_toolbar (BaseProfile.init p) p1).2.toolbar
      = some (BaseProfile.TagsPanel (BaseProfile.init p) p1) := rfl
  have hres := foldl_runOp_toolbar ops hcache
  rw [get_toolbar_cached hres p2]
  exact ⟨rfl, rfl⟩

/-- Claim C5: when both flags are on and both strings produce at least one
token, every `--include=` token sits strictly before every `--exclude=`
token in the returned list. -/
theorem include_tokens_before_exclude_tokens (s : ProfileState)
    (_h1 : s.plugin.apply_include_tags = true)
    (_h2 : tagSegments s.plugin.include_tags ≠ [])
    (_h3 : s.plugin.apply_exclude_tags = true)
    (_h4 : tagSegments s.plugin.exclude_tags ≠ []) :
    ∀ (i j : Nat) (hi : i < (BaseProfile.get_custom_args s).length)
      (hj : j < (BaseProfile.get_custom_args s).length),
      (∃ t, (BaseProfile.get_custom_args s).get ⟨i, hi⟩ = "--include=" ++ t) →
      (∃ t, (BaseProfile.get_custom_args s).get ⟨j, hj⟩ = "--exclude=" ++ t) →
      i < j := by
  intro i j hi hj hPi hQj
  refine append_pos_lt (includeArgs s.plugin) (excludeArgs s.plugin) _
    (fun a => ∃ t, a = "--include=" ++ t) (fun a => ∃ t, a = "--exclude=" ++ t)
    (get_custom_args_eq s) ?_ ?_ i j hi hj hPi hQj
  · intro a ha hcontra
    obtain ⟨t, hEq⟩ := hcontra
    obtain ⟨t2, rfl⟩ := mem_excludeArgs ha
    exact include_token_ne_exclude_token t t2 hEq.symm
  · intro a ha hcontra
    obtain ⟨t, hEq⟩ := hcontra
    obtain ⟨t2, rfl⟩ := mem_includeArgs ha
    exact include_token_ne_exclude_token t2 t hEq

/-- Witness for C5: with one tag on each side, the include token at index 0
precedes the exclude token at index 1. -/
theorem include_tokens_before_exclude_tokens_witness :
    state5.plugin.apply_include_tags = true ∧
    tagSegments state5.plugin.include_tags ≠ [] ∧
    state5.plugin.apply_exclude_tags = true ∧
    tagSegments state5.plugin.exclude_tags ≠ [] ∧
    (0 : Nat) < 1 :=
  ⟨rfl, by decide, rfl, by decide,
    include_tokens_before_exclude_tokens state5 rfl (by decide) rfl (by decide)
      0 1 (by decide) (by decide) ⟨"a", by decide⟩ ⟨"b", by decide⟩⟩
